import Mathlib

/-!
Shallow embedding of the identity and authorization subsystem of the
Bond_Beyond repository: the Mongoose `User` schema with its pre-save hook
(src/backend/models/User.js) and the Express auth router with register,
login and the auth middleware (src/unnamed/part_000, i.e. routes/auth.js).

External primitives (bcryptjs, jsonwebtoken) are modelled as idealized
deterministic functions: a bcrypt digest is an opaque value recording the
salt and the exact string that was hashed, and an HMAC signature is an
opaque value determined by the signing secret and the payload.  Mongoose
document state is modelled by passing the modified-path flags of a save
explicitly; the persistent store is a list of user records.
-/

namespace BondBeyond

/-- The `role` enum of the user schema (User.js line 21). -/
inductive Role where
  | student
  | proctor
  | admin
deriving DecidableEq, Repr

/-- The `adminLevel` enum of the user schema (User.js line 38). -/
inductive AdminLevel where
  | super
  | department
  | limited
deriving DecidableEq, Repr

/-- The six-capability `permissions` sub-document (User.js lines 41-48). -/
structure Permissions where
  manageCalendar : Bool
  manageUsers : Bool
  viewAnalytics : Bool
  manageProctors : Bool
  manageAdmins : Bool
  exportReports : Bool
deriving DecidableEq, Repr

/-- Schema defaults for `permissions`: every capability false. -/
def Permissions.default : Permissions :=
  { manageCalendar := false, manageUsers := false, viewAnalytics := false
    manageProctors := false, manageAdmins := false, exportReports := false }

/-- One capability name, used to query a `Permissions` value the way
`this.permissions[permission]` does. -/
inductive Capability where
  | manageCalendar
  | manageUsers
  | viewAnalytics
  | manageProctors
  | manageAdmins
  | exportReports
deriving DecidableEq, Repr

/-- Field lookup `permissions[capability]`. -/
def Permissions.get (p : Permissions) : Capability → Bool
  | .manageCalendar => p.manageCalendar
  | .manageUsers => p.manageUsers
  | .viewAnalytics => p.viewAnalytics
  | .manageProctors => p.manageProctors
  | .manageAdmins => p.manageAdmins
  | .exportReports => p.exportReports

/-- The string content of the `password` field of a stored document.
`plain s` is a raw secret as supplied by the client; `hashed salt inner`
is the bcrypt digest obtained by hashing the string content `inner`
with `salt`.  Hashing an already-hashed field is representable
(as `hashed salt (hashed ..)`), which is exactly the accidental
double-hash the pre-save hook's modified-gate must prevent. -/
inductive PwField where
  | plain (s : String)
  | hashed (salt : Nat) (inner : PwField)
deriving DecidableEq, Repr

/-- `bcrypt.hash(field, salt)`: wraps whatever string the field currently
holds into a digest (idealized one-way hash). -/
def bcryptHash (salt : Nat) (f : PwField) : PwField :=
  .hashed salt f

/-- `bcrypt.compare(candidate, digest)`: true exactly when the digest is a
single hash of the candidate plaintext.  A raw (never-hashed) field or a
double-hashed digest never verifies. -/
def bcryptCompare (candidate : String) : PwField → Bool
  | .hashed _ (.plain s) => candidate == s
  | _ => false

/-- One persisted user document (the fields of userSchema, User.js lines
4-55, that the auth subsystem reads or writes). -/
structure User where
  id : String
  name : String
  email : String
  password : PwField
  role : Role
  rollNumber : Option String := none
  department : Option String := none
  semester : Option Nat := none
  batch : Option String := none
  proctorId : Option String := none
  assignedStudents : List String := []
  adminLevel : AdminLevel := .limited
  permissions : Permissions := Permissions.default
  createdAt : Nat
  lastLogin : Option Nat := none
  isActive : Bool := true
deriving DecidableEq, Repr

/-- The permission table of the pre-save hook's switch on `adminLevel`
(User.js lines 64-96); the `limited` row is also the switch's default. -/
def derivePermissions : AdminLevel → Permissions
  | .super =>
    { manageCalendar := true, manageUsers := true, viewAnalytics := true
      manageProctors := true, manageAdmins := true, exportReports := true }
  | .department =>
    { manageCalendar := true, manageUsers := true, viewAnalytics := true
      manageProctors := true, manageAdmins := false, exportReports := true }
  | .limited =>
    { manageCalendar := true, manageUsers := false, viewAnalytics := true
      manageProctors := false, manageAdmins := false, exportReports := false }

/-- The pre('save') hook (User.js lines 57-98).  Mongoose's
`this.isModified(path)` facts are passed in explicitly: `modifiedPassword`
and `modifiedAdminLevel` say whether the corresponding path is in the
document's change set for this save (for a newly constructed document every
set path, defaults included, is modified; a login that only touched
`lastLogin` passes false for both).  `salt` is the fresh `genSalt` value. -/
def preSave (u : User) (modifiedPassword modifiedAdminLevel : Bool)
    (salt : Nat) : User :=
  let u1 :=
    if modifiedPassword then { u with password := bcryptHash salt u.password }
    else u
  if u1.role = .admin ∧ modifiedAdminLevel then
    { u1 with permissions := derivePermissions u1.adminLevel }
  else u1

/-- `userSchema.methods.hasPermission` (User.js lines 104-107). -/
def User.hasPermission (u : User) (c : Capability) : Bool :=
  if u.role ≠ .admin then false
  else u.permissions.get c

/-! ### Token service (jsonwebtoken, as used in auth.js) -/

/-- The claims `jwt.sign` embeds: `{userId, role}` plus the absolute
expiry derived from `expiresIn: '7d'`. -/
structure TokenPayload where
  userId : String
  role : Role
  exp : Nat
deriving DecidableEq, Repr

/-- Idealized HMAC: the signature value is determined by (and only
matches for) the exact secret and payload that produced it. -/
def hmacSig (secret : String) (p : TokenPayload) : String × TokenPayload :=
  (secret, p)

/-- A bearer token as the verifier sees it: either a structurally valid
signed token (whose signature may or may not be genuine) or a string that
does not parse as a token at all. -/
inductive Jwt where
  | signed (payload : TokenPayload) (sig : String × TokenPayload)
  | malformed
deriving DecidableEq, Repr

/-- Seconds in the `'7d'` expiresIn option of `jwt.sign`. -/
def sevenDays : Nat := 7 * 24 * 60 * 60

/-- `jwt.sign({userId, role}, secret, {expiresIn: '7d'})` at time `now`. -/
def jwtSign (secret : String) (userId : String) (role : Role)
    (now : Nat) : Jwt :=
  let p : TokenPayload := { userId := userId, role := role, exp := now + sevenDays }
  .signed p (hmacSig secret p)

/-- `jwt.verify(token, secret)` at time `now`: succeeds only on a
structurally valid token whose signature matches the secret and whose
expiry lies strictly in the future; otherwise it throws, modelled as
`none`. -/
def jwtVerify (secret : String) (now : Nat) : Jwt → Option TokenPayload
  | .malformed => none
  | .signed p s => if s = hmacSig secret p ∧ now < p.exp then some p else none

/-- `generateToken(userId, role)` (auth.js lines 19-21). -/
def generateToken (secret : String) (userId : String) (role : Role)
    (now : Nat) : Jwt :=
  jwtSign secret userId role now

/-! ### Responses and the `safeUser` projection -/

/-- A JSON value occurring in the serialized `user` object: each
constructor marks which kind of stored field it came from.  The
`vPw` constructor is the only way a password field can enter a
response. -/
inductive Val where
  | vStr (s : String)
  | vOptStr (s : Option String)
  | vOptNat (n : Option Nat)
  | vRole (r : Role)
  | vLevel (l : AdminLevel)
  | vPerms (p : Permissions)
  | vPw (f : PwField)
deriving DecidableEq, Repr

/-- `safeUser(user)` (auth.js lines 23-37): the exact field list of the
object literal returned to callers. -/
def safeUser (u : User) : List (String × Val) :=
  [ ("id", .vStr u.id),
    ("name", .vStr u.name),
    ("email", .vStr u.email),
    ("role", .vRole u.role),
    ("rollNumber", .vOptStr u.rollNumber),
    ("department", .vOptStr u.department),
    ("semester", .vOptNat u.semester),
    ("batch", .vOptStr u.batch),
    ("proctorId", .vOptStr u.proctorId),
    ("adminLevel", .vLevel u.adminLevel),
    ("permissions", .vPerms u.permissions) ]

/-- An HTTP response of the auth routes: an error body `{error}` with its
status, or a success body `{token, user}` with its status. -/
inductive Resp where
  | err (status : Nat) (msg : String)
  | ok (status : Nat) (token : Jwt) (user : List (String × Val))
deriving DecidableEq, Repr

/-- A route outcome: the response sent plus the store as the route left
it. -/
structure Outcome where
  resp : Resp
  db : List User
deriving DecidableEq, Repr

/-! ### Register route -/

/-- The destructured `req.body` of POST /register (auth.js lines 44-48),
plus the fields a client could also send (`permissions`, `isActive`,
`assignedStudents`) which the route never reads. -/
structure RegisterReq where
  name : Option String := none
  email : Option String := none
  password : Option String := none
  role : Option String := none
  rollNumber : Option String := none
  department : Option String := none
  semester : Option Nat := none
  batch : Option String := none
  proctorId : Option String := none
  adminLevel : Option AdminLevel := none
  permissions : Option Permissions := none
  isActive : Option Bool := none
  assignedStudents : Option (List String) := none
deriving Repr

/-- JS `String.prototype.toLowerCase`, modelled on the character list
(so that concrete values compute inside the kernel). -/
def toLowerStr (s : String) : String :=
  String.mk (s.data.map Char.toLower)

/-- JS `String.prototype.toUpperCase`. -/
def toUpperStr (s : String) : String :=
  String.mk (s.data.map Char.toUpper)

/-- JS `String.prototype.trim`. -/
def trimStr (s : String) : String :=
  String.mk (((s.data.dropWhile Char.isWhitespace).reverse.dropWhile
    Char.isWhitespace).reverse)

/-- JS `String.prototype.split(' ')`: pieces between single spaces,
consecutive separators yielding empty pieces. -/
def splitOnSpace (s : String) : List String :=
  (s.data.splitOn ' ').map String.mk

/-- JS `String.prototype.startsWith(p)`. -/
def startsWithStr (s p : String) : Bool :=
  p.data.isPrefixOf s.data

/-- JS truthiness of an optional string: absent, null and `""` are
falsy. -/
def truthyS : Option String → Bool
  | none => false
  | some s => s ≠ ""

/-- JS truthiness of an optional number: absent, null and `0` are
falsy. -/
def truthyN : Option Nat → Bool
  | none => false
  | some n => n ≠ 0

/-- `['student', 'proctor', 'admin'].includes(role)` followed by the
conversion into the schema enum. -/
def roleOfString : Option String → Option Role
  | some "student" => some .student
  | some "proctor" => some .proctor
  | some "admin" => some .admin
  | _ => none

/-- `email.toLowerCase().trim()` as used for lookup and storage. -/
def normalizeEmail (e : String) : String :=
  trimStr (toLowerStr e)

/-- `User.findOne({email: key})`: first stored record with that email. -/
def findOne (db : List User) (key : String) : Option User :=
  db.find? (fun u => u.email == key)

/-- The `userData` object built by POST /register (auth.js lines 88-106)
turned into a new document: whitelisted request fields plus the schema
defaults of `new User(userData)` for everything else. -/
def buildUserData (req : RegisterReq) (role : Role) (freshId : String)
    (now : Nat) : User :=
  let base : User :=
    { id := freshId
      name := trimStr (req.name.getD "")
      email := normalizeEmail (req.email.getD "")
      password := .plain (req.password.getD "")
      role := role
      createdAt := now }
  match role with
  | .student =>
    { base with
      rollNumber := some (toUpperStr (trimStr (req.rollNumber.getD "")))
      department := req.department
      semester := req.semester
      batch := some (trimStr (req.batch.getD "")) }
  | .proctor =>
    { base with
      proctorId := some (toUpperStr (trimStr (req.proctorId.getD "")))
      department := req.department }
  | .admin =>
    { base with
      adminLevel := req.adminLevel.getD .limited
      department := req.department }

/-- The early-return validation chain of POST /register (auth.js lines
50-77): the status and message of the first failing check, or the parsed
role when every check passes. -/
def validateRegister (req : RegisterReq) : Except (Nat × String) Role :=
  if trimStr (req.name.getD "") = "" then
    .error (400, "Name is required")
  else if trimStr (req.email.getD "") = "" then
    .error (400, "Email is required")
  else if (req.password.getD "").length < 6 then
    .error (400, "Password must be at least 6 characters")
  else
    match roleOfString req.role with
    | none => .error (400, "Invalid role")
    | some role =>
      if role = .student ∧ ¬ truthyS req.rollNumber then
        .error (400, "Roll number is required")
      else if role = .student ∧ ¬ truthyS req.department then
        .error (400, "Department is required")
      else if role = .student ∧ ¬ truthyN req.semester then
        .error (400, "Semester is required")
      else if role = .student ∧ ¬ truthyS req.batch then
        .error (400, "Batch is required")
      else if role = .proctor ∧ ¬ truthyS req.proctorId then
        .error (400, "Proctor ID is required")
      else if role = .proctor ∧ ¬ truthyS req.department then
        .error (400, "Department is required")
      else if role = .admin ∧ ¬ truthyS req.department then
        .error (400, "Department is required")
      else
        .ok role

/-- POST /register (auth.js lines 42-130), mirrored branch by branch:
the validation chain, the duplicate pre-check, the insert (whose unique
index may still reject when racing requests inserted the same email
between pre-check and save, surfaced as the duplicate-key error code
11000 handled in the catch block), the pre-save hook, and the 201
response.  `db` is the store at the `findOne` pre-check; `concurrent`
are the racing requests' inserts; `freshId` is the id the store assigns;
`now` feeds `createdAt` and the token expiry; `salt` feeds the hook's
hash. -/
def register (req : RegisterReq) (db : List User)
    (concurrent : List User) (freshId : String) (now : Nat)
    (salt : Nat) (secret : String) : Outcome :=
  let dbAll := db ++ concurrent
  match validateRegister req with
  | .error (st, msg) => { resp := .err st msg, db := dbAll }
  | .ok role =>
    let key := normalizeEmail (req.email.getD "")
    if (findOne db key).isSome then
      { resp := .err 400 "Email already registered", db := dbAll }
    else
      let userData := buildUserData req role freshId now
      if dbAll.any (fun u => u.email == userData.email) then
        { resp := .err 400 "Email already registered", db := dbAll }
      else
        let saved := preSave userData true true salt
        { resp := .ok 201 (generateToken secret saved.id saved.role now)
            (safeUser saved)
          db := dbAll ++ [saved] }

/-! ### Login route -/

/-- The destructured `req.body` of POST /login (auth.js line 137). -/
structure LoginReq where
  email : Option String := none
  password : Option String := none
deriving Repr

/-- POST /login (auth.js lines 135-170), mirrored branch by branch.  A
successful login saves the found document after setting `lastLogin`,
so the pre-save hook runs with only the `lastLogin` path modified. -/
def login (req : LoginReq) (db : List User) (now : Nat)
    (secret : String) : Outcome :=
  if ¬ truthyS req.email ∨ ¬ truthyS req.password then
    { resp := .err 400 "Email and password are required", db := db }
  else
    match findOne db (normalizeEmail (req.email.getD "")) with
    | none => { resp := .err 401 "Invalid credentials", db := db }
    | some u =>
      if ¬ u.isActive then
        { resp := .err 401 "Account is deactivated. Contact admin.", db := db }
      else if ¬ bcryptCompare (req.password.getD "") u.password then
        { resp := .err 401 "Invalid credentials", db := db }
      else
        let u1 := preSave { u with lastLogin := some now } false false 0
        { resp := .ok 200 (generateToken secret u1.id u1.role now)
            (safeUser u1)
          db := db.map (fun v => if v.id == u.id then u1 else v) }

/-! ### Auth middleware -/

/-- What the middleware does with a request: reject with a status and an
error body, or inject the verified identity and role into the request
context (`req.userId`, `req.userRole`) and call `next()`. -/
inductive AuthResult where
  | reject (status : Nat) (msg : String)
  | proceed (userId : String) (role : Role)
deriving DecidableEq, Repr

/-- `authMiddleware` (auth.js lines 175-196).  `verifyToken` stands for
`token => jwt.verify(token, JWT_SECRET)` applied to the token substring
of the header, returning the decoded payload or throwing (`none`).
`authHeader` is `req.headers.authorization` (`none` when absent). -/
def authMiddleware (verifyToken : String → Option TokenPayload)
    (authHeader : Option String) : AuthResult :=
  match authHeader with
  | none => .reject 401 "No token provided"
  | some h =>
    if ¬ startsWithStr h "Bearer " then .reject 401 "No token provided"
    else
      let token := (splitOnSpace h).getD 1 ""
      if token = "" then .reject 401 "Malformed authorization header"
      else
        match verifyToken token with
        | none => .reject 401 "Invalid or expired token"
        | some decoded => .proceed decoded.userId decoded.role

/-! ### Module-load guard for the signing secret -/

/-- The module-load guard of auth.js lines 10-14: read `JWT_SECRET` from
the environment; if it is absent or empty (JS falsy), the process exits
fatally (`none`) before any route exists, otherwise module load completes
with the secret the routes will use. -/
def moduleLoad (envJwtSecret : Option String) : Option String :=
  match envJwtSecret with
  | none => none
  | some s => if s = "" then none else some s

/-! ## Helper lemmas about the pre-save hook -/

theorem preSave_role (u : User) (mp ma : Bool) (s : Nat) :
    (preSave u mp ma s).role = u.role := by
  simp only [preSave]
  repeat' split
  all_goals rfl

theorem preSave_adminLevel (u : User) (mp ma : Bool) (s : Nat) :
    (preSave u mp ma s).adminLevel = u.adminLevel := by
  simp only [preSave]
  repeat' split
  all_goals rfl

theorem preSave_isActive (u : User) (mp ma : Bool) (s : Nat) :
    (preSave u mp ma s).isActive = u.isActive := by
  simp only [preSave]
  repeat' split
  all_goals rfl

theorem preSave_assignedStudents (u : User) (mp ma : Bool) (s : Nat) :
    (preSave u mp ma s).assignedStudents = u.assignedStudents := by
  simp only [preSave]
  repeat' split
  all_goals rfl

theorem preSave_id (u : User) (mp ma : Bool) (s : Nat) :
    (preSave u mp ma s).id = u.id := by
  simp only [preSave]
  repeat' split
  all_goals rfl

theorem preSave_permissions_admin (u : User) (mp : Bool) (s : Nat)
    (h : u.role = Role.admin) :
    (preSave u mp true s).permissions = derivePermissions u.adminLevel := by
  simp only [preSave]
  repeat' split
  all_goals simp_all

theorem preSave_permissions_nonadmin (u : User) (mp ma : Bool) (s : Nat)
    (h : u.role ≠ Role.admin) :
    (preSave u mp ma s).permissions = u.permissions := by
  simp only [preSave]
  repeat' split
  all_goals simp_all

theorem preSave_unmodified (u : User) (s : Nat) :
    preSave u false false s = u := by
  simp [preSave]

theorem preSave_password_unmodified (u : User) (ma : Bool) (s : Nat) :
    (preSave u false ma s).password = u.password := by
  simp only [preSave]
  repeat' split
  all_goals simp_all

theorem buildUserData_permissions (req : RegisterReq) (role : Role)
    (freshId : String) (now : Nat) :
    (buildUserData req role freshId now).permissions = Permissions.default := by
  cases role <;> rfl

theorem buildUserData_isActive (req : RegisterReq) (role : Role)
    (freshId : String) (now : Nat) :
    (buildUserData req role freshId now).isActive = true := by
  cases role <;> rfl

theorem buildUserData_assignedStudents (req : RegisterReq) (role : Role)
    (freshId : String) (now : Nat) :
    (buildUserData req role freshId now).assignedStudents = [] := by
  cases role <;> rfl

theorem buildUserData_role (req : RegisterReq) (role : Role)
    (freshId : String) (now : Nat) :
    (buildUserData req role freshId now).role = role := by
  cases role <;> rfl

/-! ## Shape lemmas for the routes -/

/-- When the validation chain accepts, the request's role string parses to
the accepted role. -/
theorem validateRegister_ok (req : RegisterReq) (role : Role)
    (h : validateRegister req = .ok role) :
    roleOfString req.role = some role := by
  unfold validateRegister at h
  repeat' split at h
  all_goals simp_all

/-- Every run of the register route either reports an error and leaves the
store as it was, or appends exactly one document, built from the request by
`buildUserData` and passed through the pre-save hook, and responds 201 with
a token for it and its `safeUser` projection. -/
theorem register_shape (req : RegisterReq) (db concurrent : List User)
    (freshId : String) (now salt : Nat) (secret : String) :
    (∃ st msg, register req db concurrent freshId now salt secret
        = { resp := .err st msg, db := db ++ concurrent })
  ∨ (∃ role, roleOfString req.role = some role ∧
      register req db concurrent freshId now salt secret
        = { resp := .ok 201
              (generateToken secret
                (preSave (buildUserData req role freshId now) true true salt).id
                (preSave (buildUserData req role freshId now) true true salt).role
                now)
              (safeUser (preSave (buildUserData req role freshId now) true true salt))
            db := (db ++ concurrent)
              ++ [preSave (buildUserData req role freshId now) true true salt] }) := by
  cases hv : validateRegister req with
  | error e =>
    obtain ⟨st, msg⟩ := e
    exact Or.inl ⟨st, msg, by simp [register, hv]⟩
  | ok role =>
    by_cases h1 : (findOne db (normalizeEmail (req.email.getD ""))).isSome
    · exact Or.inl ⟨400, "Email already registered", by simp [register, hv, h1]⟩
    · by_cases h2 : (db ++ concurrent).any
          (fun u => u.email == (buildUserData req role freshId now).email)
      · exact Or.inl ⟨400, "Email already registered", by simp [register, hv, h1, h2]⟩
      · exact Or.inr ⟨role, validateRegister_ok req role hv,
          by simp [register, hv, h1, h2]⟩

/-- Every run of the login route either reports an error and leaves the
store as it was, or finds an active record whose password verifies, updates
only its `lastLogin`, and responds 200 with a token and its `safeUser`
projection. -/
theorem login_shape (req : LoginReq) (db : List User) (now : Nat)
    (secret : String) :
    (∃ st msg, login req db now secret = { resp := .err st msg, db := db })
  ∨ (∃ u, findOne db (normalizeEmail (req.email.getD "")) = some u ∧
      u.isActive = true ∧
      bcryptCompare (req.password.getD "") u.password = true ∧
      login req db now secret
        = { resp := .ok 200
              (generateToken secret u.id u.role now)
              (safeUser { u with lastLogin := some now })
            db := db.map (fun v =>
              if v.id == u.id then { u with lastLogin := some now } else v) }) := by
  by_cases h0 : (¬ truthyS req.email ∨ ¬ truthyS req.password)
  · exact Or.inl ⟨400, "Email and password are required",
      by simp only [login, if_pos h0]⟩
  · push_neg at h0
    obtain ⟨he, hp⟩ := h0
    cases hf : findOne db (normalizeEmail (req.email.getD "")) with
    | none =>
      exact Or.inl ⟨401, "Invalid credentials", by simp [login, he, hp, hf]⟩
    | some u =>
      by_cases ha : u.isActive
      · by_cases hc : bcryptCompare (req.password.getD "") u.password
        · refine Or.inr ⟨u, rfl, ha, hc, ?_⟩
          simp [login, he, hp, hf, ha, hc, preSave_unmodified]
        · exact Or.inl ⟨401, "Invalid credentials",
            by simp [login, he, hp, hf, ha, hc]⟩
      · exact Or.inl ⟨401, "Account is deactivated. Contact admin.",
          by simp [login, he, hp, hf, ha]⟩

/-! ## Claim theorems -/

/-- C1: the Permission Deriver is a pure total function of
(role, adminLevel): the table holds exactly (super: all six capabilities
true; department: all true except manageAdmins; limited: only
manageCalendar and viewAnalytics true); whenever an admin record is saved
with its adminLevel in the modified set, the saved permissions equal the
table's row; and for every record whose role is not admin, hasPermission
returns false for every capability regardless of adminLevel or stored
permissions. -/
theorem C1_permission_deriver :
    derivePermissions .super
      = { manageCalendar := true, manageUsers := true, viewAnalytics := true
          manageProctors := true, manageAdmins := true, exportReports := true }
  ∧ derivePermissions .department
      = { manageCalendar := true, manageUsers := true, viewAnalytics := true
          manageProctors := true, manageAdmins := false, exportReports := true }
  ∧ derivePermissions .limited
      = { manageCalendar := true, manageUsers := false, viewAnalytics := true
          manageProctors := false, manageAdmins := false, exportReports := false }
  ∧ (∀ (u : User) (mp : Bool) (salt : Nat), u.role = Role.admin →
      (preSave u mp true salt).permissions = derivePermissions u.adminLevel)
  ∧ (∀ (u : User) (c : Capability), u.role ≠ Role.admin →
      u.hasPermission c = false) := by
  refine ⟨rfl, rfl, rfl, ?_, ?_⟩
  · intro u mp salt h
    exact preSave_permissions_admin u mp salt h
  · intro u c h
    simp [User.hasPermission, h]

theorem C1_permission_deriver_witness :
    (preSave
        { id := "a1", name := "n", email := "e", password := .plain "p"
          role := Role.admin, adminLevel := .super, createdAt := 0 }
        true true 0).permissions
      = derivePermissions AdminLevel.super
  ∧ User.hasPermission
      { id := "s1", name := "n", email := "e", password := .plain "p"
        role := Role.student, adminLevel := .super
        permissions := derivePermissions .super, createdAt := 0 }
      Capability.manageCalendar = false :=
  ⟨C1_permission_deriver.2.2.2.1 _ true 0 rfl,
   C1_permission_deriver.2.2.2.2 _ Capability.manageCalendar (by decide)⟩

/-- C2: token round-trip: verifying a token immediately after issuance
yields exactly the signed userId and role; verification fails when the
signature is not the one computed from the secret and payload, when the
7-day expiry has passed, and on a structurally malformed token. -/
theorem C2_token_round_trip (secret uid : String) (r : Role) (now : Nat) :
    jwtVerify secret now (jwtSign secret uid r now)
      = some { userId := uid, role := r, exp := now + sevenDays }
  ∧ (∀ sig, sig ≠ hmacSig secret { userId := uid, role := r, exp := now + sevenDays } →
      jwtVerify secret now
        (.signed { userId := uid, role := r, exp := now + sevenDays } sig) = none)
  ∧ (∀ t, now + sevenDays ≤ t →
      jwtVerify secret t (jwtSign secret uid r now) = none)
  ∧ (∀ t, jwtVerify secret t Jwt.malformed = none) := by
  refine ⟨?_, ?_, ?_, fun t => rfl⟩
  · have h : now < now + sevenDays := by unfold sevenDays; omega
    simp [jwtVerify, jwtSign, h]
  · intro sig hs
    simp [jwtVerify, hs]
  · intro t ht
    have h : ¬ t < now + sevenDays := Nat.not_lt.mpr ht
    simp [jwtVerify, jwtSign, h]

theorem C2_token_round_trip_witness :
    jwtVerify "k" 0 (jwtSign "k" "u" Role.student 0)
      = some { userId := "u", role := Role.student, exp := 0 + sevenDays }
  ∧ jwtVerify "k" 0
      (.signed { userId := "u", role := Role.student, exp := 0 + sevenDays }
        ("x", { userId := "u", role := Role.student, exp := 0 + sevenDays })) = none
  ∧ jwtVerify "k" sevenDays (jwtSign "k" "u" Role.student 0) = none :=
  ⟨(C2_token_round_trip "k" "u" Role.student 0).1,
   (C2_token_round_trip "k" "u" Role.student 0).2.1 _ (by simp [hmacSig]),
   (C2_token_round_trip "k" "u" Role.student 0).2.2.1 sevenDays (by omega)⟩

/-- C3: login with an unknown email and login with a wrong password on an
existing active account both answer 401 with the identical message
"Invalid credentials"; login against a record with isActive = false
answers 401 "Account is deactivated. Contact admin.", and the
active-status check precedes password verification: the deactivation
message is produced with no assumption at all on the supplied
password. -/
theorem C3_login_failures (req : LoginReq) (db : List User) (now : Nat)
    (secret : String) (he : truthyS req.email = true)
    (hp : truthyS req.password = true) :
    (findOne db (normalizeEmail (req.email.getD "")) = none →
      (login req db now secret).resp = .err 401 "Invalid credentials")
  ∧ (∀ u, findOne db (normalizeEmail (req.email.getD "")) = some u →
      u.isActive = true →
      bcryptCompare (req.password.getD "") u.password = false →
      (login req db now secret).resp = .err 401 "Invalid credentials")
  ∧ (∀ u, findOne db (normalizeEmail (req.email.getD "")) = some u →
      u.isActive = false →
      (login req db now secret).resp
        = .err 401 "Account is deactivated. Contact admin.") := by
  refine ⟨?_, ?_, ?_⟩
  · intro hf
    simp [login, he, hp, hf]
  · intro u hf ha hc
    simp [login, he, hp, hf, ha, hc]
  · intro u hf ha
    simp [login, he, hp, hf, ha]

theorem C3_login_failures_witness :
    (login { email := some "a@x.com", password := some "w" } [] 0 "k").resp
      = .err 401 "Invalid credentials"
  ∧ (login { email := some "a@x.com", password := some "w" }
      [{ id := "1", name := "n", email := "a@x.com"
         password := .hashed 1 (.plain "right"), role := Role.student
         createdAt := 0 }] 0 "k").resp = .err 401 "Invalid credentials"
  ∧ (login { email := some "a@x.com", password := some "w" }
      [{ id := "1", name := "n", email := "a@x.com"
         password := .hashed 1 (.plain "right"), role := Role.student
         createdAt := 0, isActive := false }] 0 "k").resp
      = .err 401 "Account is deactivated. Contact admin." :=
  ⟨(C3_login_failures _ _ 0 "k" (by decide) (by decide)).1 rfl,
   (C3_login_failures _ _ 0 "k" (by decide) (by decide)).2.1
     { id := "1", name := "n", email := "a@x.com"
       password := .hashed 1 (.plain "right"), role := Role.student
       createdAt := 0 } (by decide) rfl (by decide),
   (C3_login_failures _ _ 0 "k" (by decide) (by decide)).2.2
     { id := "1", name := "n", email := "a@x.com"
       password := .hashed 1 (.plain "right"), role := Role.student
       createdAt := 0, isActive := false } (by decide) rfl⟩

/-- C4: the user object returned by every successful registration and
login response is the `safeUser` projection, and `safeUser` never emits
the key "password" nor any value carrying a password field (raw or
hashed). -/
theorem C4_no_password_leak :
    (∀ (u : User) (k : String) (v : Val), (k, v) ∈ safeUser u →
      k ≠ "password" ∧ ∀ f : PwField, v ≠ Val.vPw f)
  ∧ (∀ (req : RegisterReq) (db concurrent : List User) (freshId : String)
        (now salt : Nat) (secret : String) (st : Nat) (tok : Jwt)
        (body : List (String × Val)),
      (register req db concurrent freshId now salt secret).resp
          = Resp.ok st tok body →
      ∃ u, body = safeUser u)
  ∧ (∀ (req : LoginReq) (db : List User) (now : Nat) (secret : String)
        (st : Nat) (tok : Jwt) (body : List (String × Val)),
      (login req db now secret).resp = Resp.ok st tok body →
      ∃ u, body = safeUser u) := by
  refine ⟨?_, ?_, ?_⟩
  · intro u k v h
    simp only [safeUser, List.mem_cons, List.not_mem_nil, or_false] at h
    rcases h with h|h|h|h|h|h|h|h|h|h|h <;> cases h <;>
      exact ⟨by decide, fun f => by simp⟩
  · intro req db concurrent freshId now salt secret st tok body h
    rcases register_shape req db concurrent freshId now salt secret with
      ⟨st', msg', heq⟩ | ⟨role, hrole, heq⟩
    · rw [heq] at h
      simp at h
    · rw [heq] at h
      injection h with h1 h2 h3
      exact ⟨_, h3.symm⟩
  · intro req db now secret st tok body h
    rcases login_shape req db now secret with
      ⟨st', msg', heq⟩ | ⟨u, hf, ha, hc, heq⟩
    · rw [heq] at h
      simp at h
    · rw [heq] at h
      injection h with h1 h2 h3
      exact ⟨_, h3.symm⟩

theorem C4_no_password_leak_witness :
    ("id" : String) ≠ "password" ∧ ∀ f : PwField, Val.vStr "u0" ≠ Val.vPw f :=
  C4_no_password_leak.1
    { id := "u0", name := "n", email := "e", password := .plain "p"
      role := Role.student, createdAt := 0 }
    "id" (Val.vStr "u0") (by simp [safeUser])

/-- C5: the registration gate rejects with 400 and a field-specific
message: empty (or whitespace-only) name; password shorter than 6;
a role outside student/proctor/admin; a student request missing batch;
a duplicate email in normalized form found by the pre-check; and a
duplicate-key failure raised by the store at insert time, translated to
the same 400 "Email already registered" response as the pre-check. -/
theorem C5_registration_gate :
    (∀ (req : RegisterReq) (db concurrent : List User) (freshId : String)
        (now salt : Nat) (secret : String),
      trimStr (req.name.getD "") = "" →
      (register req db concurrent freshId now salt secret).resp
        = .err 400 "Name is required")
  ∧ (∀ (req : RegisterReq) (db concurrent : List User) (freshId : String)
        (now salt : Nat) (secret : String),
      trimStr (req.name.getD "") ≠ "" →
      trimStr (req.email.getD "") ≠ "" →
      (req.password.getD "").length < 6 →
      (register req db concurrent freshId now salt secret).resp
        = .err 400 "Password must be at least 6 characters")
  ∧ (∀ (req : RegisterReq) (db concurrent : List User) (freshId : String)
        (now salt : Nat) (secret : String),
      trimStr (req.name.getD "") ≠ "" →
      trimStr (req.email.getD "") ≠ "" →
      ¬ (req.password.getD "").length < 6 →
      roleOfString req.role = none →
      (register req db concurrent freshId now salt secret).resp
        = .err 400 "Invalid role")
  ∧ (∀ (req : RegisterReq) (db concurrent : List User) (freshId : String)
        (now salt : Nat) (secret : String),
      trimStr (req.name.getD "") ≠ "" →
      trimStr (req.email.getD "") ≠ "" →
      ¬ (req.password.getD "").length < 6 →
      roleOfString req.role = some Role.student →
      truthyS req.rollNumber = true →
      truthyS req.department = true →
      truthyN req.semester = true →
      truthyS req.batch = false →
      (register req db concurrent freshId now salt secret).resp
        = .err 400 "Batch is required")
  ∧ (∀ (req : RegisterReq) (db concurrent : List User) (freshId : String)
        (now salt : Nat) (secret : String) (role : Role) (u : User),
      validateRegister req = .ok role →
      findOne db (normalizeEmail (req.email.getD "")) = some u →
      (register req db concurrent freshId now salt secret).resp
        = .err 400 "Email already registered")
  ∧ (∀ (req : RegisterReq) (db concurrent : List User) (freshId : String)
        (now salt : Nat) (secret : String) (role : Role),
      validateRegister req = .ok role →
      findOne db (normalizeEmail (req.email.getD "")) = none →
      ((db ++ concurrent).any
        (fun u => u.email == (buildUserData req role freshId now).email)) = true →
      (register req db concurrent freshId now salt secret).resp
        = .err 400 "Email already registered") := by
  refine ⟨?_, ?_, ?_, ?_, ?_, ?_⟩
  · intro req db concurrent freshId now salt secret h
    simp [register, validateRegister, h]
  · intro req db concurrent freshId now salt secret h1 h2 h3
    simp [register, validateRegister, h1, h2, h3]
  · intro req db concurrent freshId now salt secret h1 h2 h3 h4
    simp [register, validateRegister, h1, h2, h3, h4]
  · intro req db concurrent freshId now salt secret h1 h2 h3 h4 h5 h6 h7 h8
    simp [register, validateRegister, h1, h2, h3, h4, h5, h6, h7, h8]
  · intro req db concurrent freshId now salt secret role u hv hf
    simp [register, hv, hf]
  · intro req db concurrent freshId now salt secret role hv hf ha
    simp [register, hv, hf, ha]

theorem C5_registration_gate_witness :
    (register { name := some "  " } [] [] "i1" 0 0 "k").resp
      = .err 400 "Name is required"
  ∧ (register
      { name := some "A", email := some "a@x.com",
        password := some "12345" } [] [] "i1" 0 0 "k").resp
      = .err 400 "Password must be at least 6 characters"
  ∧ (register
      { name := some "A", email := some "a@x.com",
        password := some "123456", role := some "teacher" }
        [] [] "i1" 0 0 "k").resp
      = .err 400 "Invalid role"
  ∧ (register
      { name := some "A", email := some "a@x.com",
        password := some "123456", role := some "student",
        rollNumber := some "r1", department := some "CSE",
        semester := some 3 } [] [] "i1" 0 0 "k").resp
      = .err 400 "Batch is required"
  ∧ (register
      { name := some "A", email := some " A@X.com ",
        password := some "123456", role := some "student",
        rollNumber := some "r1", department := some "CSE",
        semester := some 3, batch := some "2024" }
        [{ id := "0", name := "B", email := "a@x.com",
           password := .hashed 1 (.plain "other"), role := Role.student,
           createdAt := 0 }] [] "i1" 0 0 "k").resp
      = .err 400 "Email already registered"
  ∧ (register
      { name := some "A", email := some "a@x.com",
        password := some "123456", role := some "student",
        rollNumber := some "r1", department := some "CSE",
        semester := some 3, batch := some "2024" }
        [] [{ id := "0", name := "B", email := "a@x.com",
              password := .hashed 1 (.plain "other"), role := Role.student,
              createdAt := 0 }] "i1" 0 0 "k").resp
      = .err 400 "Email already registered" :=
  ⟨C5_registration_gate.1 _ [] [] "i1" 0 0 "k" (by decide),
   C5_registration_gate.2.1 _ [] [] "i1" 0 0 "k" (by decide) (by decide) (by decide),
   C5_registration_gate.2.2.1 _ [] [] "i1" 0 0 "k" (by decide) (by decide)
     (by decide) (by decide),
   C5_registration_gate.2.2.2.1 _ [] [] "i1" 0 0 "k" (by decide) (by decide)
     (by decide) (by decide) (by decide) (by decide) (by decide) (by decide),
   C5_registration_gate.2.2.2.2.1 _ _ [] "i1" 0 0 "k" Role.student
     { id := "0", name := "B", email := "a@x.com",
       password := .hashed 1 (.plain "other"), role := Role.student,
       createdAt := 0 } rfl (by decide),
   C5_registration_gate.2.2.2.2.2 _ [] _ "i1" 0 0 "k" Role.student
     rfl rfl (by decide)⟩

/-- C6: normalization end-to-end: registering the student stores the
email lowercased-and-trimmed and the rollNumber trimmed-and-uppercased;
a later login with the differently-cased email "A@X.com" and the same
password finds the account, succeeds with a fresh token signed at login
time, and writes a new lastLogin. -/
theorem C6_end_to_end_normalization :
    ((register
      { name := some "A", email := some "a@x.com",
        password := some "secret1", role := some "student",
        rollNumber := some "r1", department := some "CSE",
        semester := some 3, batch := some "2024" }
        [] [] "id1" 100 7 "k").db.map (fun u => (u.email, u.rollNumber)))
      = [("a@x.com", some "R1")]
  ∧ (register
      { name := some "A", email := some "a@x.com",
        password := some "secret1", role := some "student",
        rollNumber := some "r1", department := some "CSE",
        semester := some 3, batch := some "2024" }
        [] [] "id1" 100 7 "k").resp
      = Resp.ok 201 (generateToken "k" "id1" Role.student 100)
          (safeUser
            { id := "id1", name := "A", email := "a@x.com",
              password := .hashed 7 (.plain "secret1"), role := Role.student,
              rollNumber := some "R1", department := some "CSE",
              semester := some 3, batch := some "2024", createdAt := 100 })
  ∧ (login { email := some "A@X.com", password := some "secret1" }
      (register
        { name := some "A", email := some "a@x.com",
          password := some "secret1", role := some "student",
          rollNumber := some "r1", department := some "CSE",
          semester := some 3, batch := some "2024" }
        [] [] "id1" 100 7 "k").db 200 "k").resp
      = Resp.ok 200 (generateToken "k" "id1" Role.student 200)
          (safeUser
            { id := "id1", name := "A", email := "a@x.com",
              password := .hashed 7 (.plain "secret1"), role := Role.student,
              rollNumber := some "R1", department := some "CSE",
              semester := some 3, batch := some "2024", createdAt := 100,
              lastLogin := some 200 })
  ∧ (login { email := some "A@X.com", password := some "secret1" }
      (register
        { name := some "A", email := some "a@x.com",
          password := some "secret1", role := some "student",
          rollNumber := some "r1", department := some "CSE",
          semester := some 3, batch := some "2024" }
        [] [] "id1" 100 7 "k").db 200 "k").db.map (fun u => u.lastLogin)
      = [some 200] := by
  refine ⟨by decide, by decide, by decide, by decide⟩

/-- C7: the Auth Gate distinguishes its three failure shapes with their
exact 401 messages (missing header or wrong scheme; empty token after the
scheme prefix; failing token verification) and on success injects the
decoded userId and role into the request context. -/
theorem C7_auth_gate (vf : String → Option TokenPayload) :
    authMiddleware vf none = .reject 401 "No token provided"
  ∧ (∀ h, startsWithStr h "Bearer " = false →
      authMiddleware vf (some h) = .reject 401 "No token provided")
  ∧ authMiddleware vf (some "Bearer ")
      = .reject 401 "Malformed authorization header"
  ∧ (∀ h t, startsWithStr h "Bearer " = true →
      (splitOnSpace h).getD 1 "" = t → t ≠ "" →
      (vf t = none →
        authMiddleware vf (some h) = .reject 401 "Invalid or expired token")
      ∧ (∀ p, vf t = some p →
        authMiddleware vf (some h) = .proceed p.userId p.role)) := by
  refine ⟨rfl, ?_, rfl, ?_⟩
  · intro h hs
    simp [authMiddleware, hs]
  · intro h t hs ht hne
    subst ht
    constructor
    · intro hv
      simp only [List.getD_eq_getElem?_getD] at hne hv
      simp [authMiddleware, hs, hne, hv]
    · intro p hv
      simp only [List.getD_eq_getElem?_getD] at hne hv
      simp [authMiddleware, hs, hne, hv]

theorem C7_auth_gate_witness :
    authMiddleware (fun _ => none) (some "Token abc")
      = .reject 401 "No token provided"
  ∧ authMiddleware (fun _ => none) (some "Bearer abc")
      = .reject 401 "Invalid or expired token"
  ∧ authMiddleware (fun _ => some { userId := "u7", role := Role.proctor, exp := 9 })
      (some "Bearer abc")
      = .proceed "u7" Role.proctor :=
  ⟨(C7_auth_gate _).2.1 "Token abc" (by decide),
   ((C7_auth_gate _).2.2.2 "Bearer abc" "abc" (by decide) (by decide)
     (by decide)).1 rfl,
   ((C7_auth_gate _).2.2.2 "Bearer abc" "abc" (by decide) (by decide)
     (by decide)).2 _ rfl⟩

/-- C8: when the JWT_SECRET environment variable is absent (or empty,
which is falsy in JS) the module-load guard aborts the process, so no
route ever runs; when it is present and non-empty, module load completes
with exactly that secret, and the routes receive it as an always-present
value, never failing per-request over it. -/
theorem C8_jwt_secret_guard :
    moduleLoad none = none
  ∧ moduleLoad (some "") = none
  ∧ (∀ s, s ≠ "" → moduleLoad (some s) = some s)
  ∧ (∀ s cfg, moduleLoad (some s) = some cfg → cfg = s ∧ s ≠ "") := by
  refine ⟨rfl, rfl, ?_, ?_⟩
  · intro s h
    simp [moduleLoad, h]
  · intro s cfg h
    by_cases hs : s = "" <;> simp_all [moduleLoad]

theorem C8_jwt_secret_guard_witness :
    moduleLoad (some "k") = some "k" :=
  C8_jwt_secret_guard.2.2.1 "k" (by decide)

/-- C9: frame property of login: a successful login replaces only the
matched record, and only its lastLogin field — in particular the save's
pre-save hook runs with the password path unmodified, so the stored
digest is untouched and the same plaintext still verifies; on every
failed login the store is left entirely unchanged (and the error
response carries no token). -/
theorem C9_login_frame :
    (∀ (req : LoginReq) (db : List User) (now : Nat) (secret : String)
        (u : User),
      truthyS req.email = true →
      truthyS req.password = true →
      findOne db (normalizeEmail (req.email.getD "")) = some u →
      u.isActive = true →
      bcryptCompare (req.password.getD "") u.password = true →
      (login req db now secret).db
          = db.map (fun v =>
              if v.id == u.id then { u with lastLogin := some now } else v)
        ∧ ({ u with lastLogin := some now } : User).password = u.password
        ∧ bcryptCompare (req.password.getD "")
            ({ u with lastLogin := some now } : User).password = true)
  ∧ (∀ (req : LoginReq) (db : List User) (now : Nat) (secret : String)
        (st : Nat) (msg : String),
      (login req db now secret).resp = .err st msg →
      (login req db now secret).db = db) := by
  constructor
  · intro req db now secret u he hp hf ha hc
    refine ⟨?_, rfl, hc⟩
    simp [login, he, hp, hf, ha, hc, preSave_unmodified]
  · intro req db now secret st msg h
    rcases login_shape req db now secret with
      ⟨st2, msg2, heq⟩ | ⟨u, hf, ha, hc, heq⟩
    · rw [heq]
    · rw [heq] at h
      simp at h

theorem C9_login_frame_witness :
    ((login { email := some "a@x.com", password := some "pw" }
        [{ id := "1", name := "n", email := "a@x.com",
           password := .hashed 1 (.plain "pw"), role := Role.student,
           createdAt := 0 }] 5 "k").db
      = [{ id := "1", name := "n", email := "a@x.com",
           password := .hashed 1 (.plain "pw"), role := Role.student,
           createdAt := 0, lastLogin := some 5 }]
    ∧ ({ id := "1", name := "n", email := "a@x.com",
         password := .hashed 1 (.plain "pw"), role := Role.student,
         createdAt := 0, lastLogin := some 5 } : User).password
        = ({ id := "1", name := "n", email := "a@x.com",
             password := .hashed 1 (.plain "pw"), role := Role.student,
             createdAt := 0 } : User).password
    ∧ bcryptCompare "pw"
        ({ id := "1", name := "n", email := "a@x.com",
           password := .hashed 1 (.plain "pw"), role := Role.student,
           createdAt := 0, lastLogin := some 5 } : User).password = true)
  ∧ (login { email := some "a@x.com" } [] 5 "k").db = [] := by
  constructor
  · have h := C9_login_frame.1
      { email := some "a@x.com", password := some "pw" }
      [{ id := "1", name := "n", email := "a@x.com",
         password := .hashed 1 (.plain "pw"), role := Role.student,
         createdAt := 0 }] 5 "k"
      { id := "1", name := "n", email := "a@x.com",
        password := .hashed 1 (.plain "pw"), role := Role.student,
        createdAt := 0 }
      (by decide) (by decide) (by decide) rfl (by decide)
    exact ⟨by rw [h.1]; decide, h.2.1, h.2.2⟩
  · exact C9_login_frame.2 { email := some "a@x.com" } [] 5 "k"
      400 "Email and password are required" (by decide)

/-- C10: a client can never set permissions directly: the registration
outcome is unchanged under arbitrary client-supplied permissions,
isActive or assignedStudents values, and every successfully stored
record has permissions derived from its role and adminLevel per the
fixed mapping (all-false for non-admin roles), isActive true and no
assigned students. -/
theorem C10_client_cannot_set_permissions :
    (∀ (req : RegisterReq) (db concurrent : List User) (freshId : String)
        (now salt : Nat) (secret : String) (p : Option Permissions)
        (i : Option Bool) (a : Option (List String)),
      register { req with permissions := p, isActive := i, assignedStudents := a } db concurrent freshId now salt secret
        = register req db concurrent freshId now salt secret)
  ∧ (∀ (req : RegisterReq) (db concurrent : List User) (freshId : String)
        (now salt : Nat) (secret : String) (st : Nat) (tok : Jwt)
        (body : List (String × Val)),
      (register req db concurrent freshId now salt secret).resp
          = Resp.ok st tok body →
      ∃ saved, (register req db concurrent freshId now salt secret).db
          = (db ++ concurrent) ++ [saved]
        ∧ (saved.role = Role.admin →
            saved.permissions = derivePermissions saved.adminLevel)
        ∧ (saved.role ≠ Role.admin →
            saved.permissions = Permissions.default)
        ∧ saved.isActive = true
        ∧ saved.assignedStudents = []) := by
  constructor
  · intro req db concurrent freshId now salt secret p i a
    rfl
  · intro req db concurrent freshId now salt secret st tok body h
    rcases register_shape req db concurrent freshId now salt secret with
      ⟨st2, msg2, heq⟩ | ⟨role, hrole, heq⟩
    · rw [heq] at h
      simp at h
    · refine ⟨preSave (buildUserData req role freshId now) true true salt,
        ?_, ?_, ?_, ?_, ?_⟩
      · rw [heq]
      · intro hadm
        rw [preSave_role, buildUserData_role] at hadm
        rw [preSave_adminLevel]
        exact preSave_permissions_admin _ _ _
          (by rw [buildUserData_role]; exact hadm)
      · intro hnadm
        rw [preSave_role, buildUserData_role] at hnadm
        rw [preSave_permissions_nonadmin _ _ _ _
          (by rw [buildUserData_role]; exact hnadm)]
        exact buildUserData_permissions req role freshId now
      · rw [preSave_isActive]
        exact buildUserData_isActive req role freshId now
      · rw [preSave_assignedStudents]
        exact buildUserData_assignedStudents req role freshId now

theorem C10_client_cannot_set_permissions_witness :
    ∃ saved,
      (register
        { name := some "B", email := some "b@x.com",
          password := some "secret1", role := some "admin",
          department := some "CSE", adminLevel := some AdminLevel.super,
          permissions := some Permissions.default, isActive := some false,
          assignedStudents := some ["z"] }
        [] [] "id9" 50 3 "k").db = ([] ++ []) ++ [saved]
      ∧ (saved.role = Role.admin →
          saved.permissions = derivePermissions saved.adminLevel)
      ∧ (saved.role ≠ Role.admin →
          saved.permissions = Permissions.default)
      ∧ saved.isActive = true
      ∧ saved.assignedStudents = [] :=
  C10_client_cannot_set_permissions.2
    { name := some "B", email := some "b@x.com",
      password := some "secret1", role := some "admin",
      department := some "CSE", adminLevel := some AdminLevel.super,
      permissions := some Permissions.default, isActive := some false,
      assignedStudents := some ["z"] }
    [] [] "id9" 50 3 "k" 201
    (generateToken "k" "id9" Role.admin 50)
    (safeUser (preSave
      (buildUserData
        { name := some "B", email := some "b@x.com",
          password := some "secret1", role := some "admin",
          department := some "CSE", adminLevel := some AdminLevel.super,
          permissions := some Permissions.default, isActive := some false,
          assignedStudents := some ["z"] }
        Role.admin "id9" 50) true true 3))
    rfl

end BondBeyond
